import Mathlib

/-!
Verification of the statement-splitting and multi-target execution engine of
the RPA-based SQL auto-deployment tool.  The definitions below are a shallow
embedding of `app/database/query_executor.py`: the splitter
`_split_sql_statements` (lines 52-230), the per-target executor
`_execute_on_database` (lines 232-319), the orchestrator `execute_query`
(lines 11-50) and the result-publication functions `_send_results` /
`_generate_execution_summary` (lines 394-469).

Modelling conventions:
* Python strings are Lean `String`s (ASCII inputs; Python's `str.strip` and
  the regex class `\s` are modelled by `pyIsSpace`, covering the six ASCII
  whitespace characters).
* The fixed regular expressions used by the splitter are deterministic on
  their token structure (each greedy piece is followed by a character it can
  never consume), so each is embedded as a direct scanning function that
  tries every start position left to right, exactly like `re.search`.
* Wall-clock fields (`exec_time`) and the rendered text of row tables are
  not claim-relevant; rendered result blocks are embedded as the tagged
  variants (`Block`) that the code's f-strings distinguish.
* Database I/O (`pyodbc`) is embedded as an explicit behaviour `DbBeh`:
  connection opening may fail with a message, and each statement execution
  either yields the driver's list of result sets, raises a
  `pyodbc.DatabaseError` (caught per statement), or raises any other
  exception (which propagates to the per-target handler).
-/

/-- Python ASCII whitespace, the set matched by `str.strip()` and `\s`
on the inputs in scope. -/
def pyIsSpace (c : Char) : Bool :=
  c == ' ' || c == '\t' || c == '\n' || c == '\r' || c == '\x0b' || c == '\x0c'

/-- Strip leading and trailing whitespace from a character list. -/
def stripChars (l : List Char) : List Char :=
  ((l.dropWhile pyIsSpace).reverse.dropWhile pyIsSpace).reverse

/-- Python `str.strip()`. -/
def pyStrip (s : String) : String :=
  String.mk (stripChars s.toList)

/-- Python `str.rstrip()`. -/
def pyRStrip (s : String) : String :=
  String.mk ((s.toList.reverse.dropWhile pyIsSpace).reverse)

/-- Does `l`, uppercased, start with the (already uppercase) pattern `p`? -/
def upStarts : List Char → List Char → Bool
  | [], _ => true
  | _ :: _, [] => false
  | p :: ps, c :: cs => p == c.toUpper && upStarts ps cs

/-- Case-insensitive literal match: consume the pattern `p` (written in
uppercase) from the front of `s` and return the remainder, as a regex
literal does under `re.IGNORECASE`. -/
def litAt : List Char → List Char → Option (List Char)
  | [], s => some s
  | _ :: _, [] => none
  | p :: ps, c :: cs => if p == c.toUpper then litAt ps cs else none

/-- Regex `\s+`: at least one whitespace character, consumed greedily. -/
def wsPlus : List Char → Option (List Char)
  | [] => none
  | c :: cs => if pyIsSpace c then some (cs.dropWhile pyIsSpace) else none

/-- Regex `[^stop]+` followed by the literal `stop` character, as in
`[^)]+\)` and `[^;]+;`: both pieces are deterministic because the class
excludes its terminator. -/
def takeNon (stop : Char) : List Char → Option (List Char)
  | [] => none
  | c :: cs =>
    if c == stop then none
    else match cs.dropWhile (fun d => !(d == stop)) with
      | [] => none
      | _ :: rest => some rest

/-- Python `\w` (ASCII): letters, digits and underscore. -/
def isWordCh (c : Char) : Bool := c.isAlphanum || c == '_'

/-- Python `str.split('\n')` on the character level: always at least one
(possibly empty) segment, one extra segment per newline. -/
def splitNlChars : List Char → List (List Char)
  | [] => [[]]
  | c :: cs =>
    match splitNlChars cs with
    | [] => [[]]
    | g :: gs => if c == '\n' then [] :: g :: gs else (c :: g) :: gs

/-- Python `str.split('\n')`. -/
def splitOnNl (s : String) : List String :=
  (splitNlChars s.toList).map String.mk

/-- Python `'\n'.join(...)`. -/
def joinNl : List String → String
  | [] => ""
  | [x] => x
  | x :: xs => x ++ "\n" ++ joinNl xs

/-- Python string slicing `s[:n]` (by code point, as Python indexes). -/
def pyTake (s : String) (n : Nat) : String :=
  String.mk (s.toList.take n)

/-- Continuation-passing literal: match `p` case-insensitively then run `k`. -/
def litB (p : String) (k : List Char → Bool) (s : List Char) : Bool :=
  match litAt p.toList s with
  | some r => k r
  | none => false

/-- Continuation-passing alternation over literals, in regex order. -/
def altLit (pats : List String) (k : List Char → Bool) (s : List Char) : Bool :=
  pats.any fun p => litB p k s

/-- Continuation-passing `\s+`. -/
def wsPlusB (k : List Char → Bool) (s : List Char) : Bool :=
  match wsPlus s with
  | some r => k r
  | none => false

/-- Word boundary after a literal: the next character is a non-word
character, or the input ends. -/
def endBoundary : List Char → Bool
  | [] => true
  | c :: _ => !(isWordCh c)

/-- Head of the remainder is a word character (regex `\w+` needs one). -/
def headWord : List Char → Bool
  | [] => false
  | c :: _ => isWordCh c

/-- Generic `re.search`: try the position matcher at every suffix, keeping
track of whether the previous character is a word character (for `\b`). -/
def searchA (p : Bool → List Char → Bool) : Bool → List Char → Bool
  | _, [] => false
  | prevW, c :: cs => p prevW (c :: cs) || searchA p (isWordCh c) cs

/-- `(CREATE|ALTER|DROP)\s+` followed by continuation `k`. -/
def cadThen (k : List Char → Bool) (s : List Char) : Bool :=
  altLit ["CREATE", "ALTER", "DROP"] (wsPlusB k) s

/-- Position matcher for `\b(CREATE|ALTER|DROP)\s+(PROCEDURE|PROC)\s+`. -/
def procAt (prevW : Bool) (s : List Char) : Bool :=
  !prevW && cadThen (altLit ["PROCEDURE", "PROC"] (wsPlusB fun _ => true)) s

/-- Position matcher for `\b(CREATE|ALTER|DROP)\s+(FUNCTION|FUNC)\s+`. -/
def funcAt (prevW : Bool) (s : List Char) : Bool :=
  !prevW && cadThen (altLit ["FUNCTION", "FUNC"] (wsPlusB fun _ => true)) s

/-- Position matcher for `\b(CREATE|ALTER|DROP)\s+TRIGGER\s+`. -/
def trigAt (prevW : Bool) (s : List Char) : Bool :=
  !prevW && cadThen (litB "TRIGGER" (wsPlusB fun _ => true)) s

/-- Lazy search `.*?\bSELECT\b` (under `re.DOTALL`, `.` matches anything,
so this is existence of a word-bounded SELECT anywhere to the right). -/
def selSearch : Bool → List Char → Bool :=
  searchA fun prevW s =>
    !prevW && litB "SELECT" endBoundary s

/-- Lazy search `.*?\bAS\b.*?\bSELECT\b`, with regex backtracking across
candidate `AS` occurrences. -/
def asSelSearch : Bool → List Char → Bool :=
  searchA fun prevW s =>
    !prevW && litB "AS" (fun r => endBoundary r && selSearch true r) s

/-- Position matcher for `\b(CREATE|ALTER|DROP)\s+VIEW\s+.*?\bAS\b.*?\bSELECT\b`. -/
def viewAt (prevW : Bool) (s : List Char) : Bool :=
  !prevW && cadThen (litB "VIEW" (wsPlusB (asSelSearch false))) s

/-- Position matcher for `\b(EXEC|EXECUTE)\s+\w+` (regex alternation order:
`EXEC` first, then `EXECUTE` on backtracking). -/
def execAt (prevW : Bool) (s : List Char) : Bool :=
  !prevW && (litB "EXEC" (wsPlusB headWord) s || litB "EXECUTE" (wsPlusB headWord) s)

/-- Position matcher for `\bDECLARE\s+@\w+`. -/
def declAt (prevW : Bool) (s : List Char) : Bool :=
  !prevW && litB "DECLARE" (wsPlusB fun r =>
    match r with
    | '@' :: t => headWord t
    | _ => false) s

/-- Position matcher for `\bBEGIN\b.*?\bEND\b`. -/
def beginEndAt (prevW : Bool) (s : List Char) : Bool :=
  !prevW && litB "BEGIN" (fun r =>
    endBoundary r &&
    searchA (fun pw t => !pw && litB "END" endBoundary t) true r) s

/-- The `complex_patterns` check of `_split_sql_statements` (lines 136-155):
does the comment-stripped text match any of the seven patterns? -/
def matchesComplexPatterns (q : String) : Bool :=
  let s := q.toList
  searchA procAt false s || searchA funcAt false s || searchA trigAt false s ||
  searchA viewAt false s || searchA execAt false s || searchA declAt false s ||
  searchA beginEndAt false s

/-- The inner re-check of line 157:
`\b(CREATE|ALTER|DROP)\s+(PROCEDURE|PROC|FUNCTION|FUNC|TRIGGER)\s+`. -/
def innerProcSearch (q : String) : Bool :=
  searchA (fun prevW s =>
    !prevW && cadThen (altLit ["PROCEDURE", "PROC", "FUNCTION", "FUNC", "TRIGGER"]
      (wsPlusB fun _ => true)) s) false q.toList

/-- The inner re-check of line 160: `\b(EXEC|EXECUTE)\s+\w+`. -/
def innerExecSearch (q : String) : Bool :=
  searchA execAt false q.toList

/-- The defensive re-check of line 226: `\b(CREATE|ALTER)\s+(PROCEDURE|PROC)\s+`. -/
def createAlterProcSearch (q : String) : Bool :=
  searchA (fun prevW s =>
    !prevW && altLit ["CREATE", "ALTER"]
      (wsPlusB (altLit ["PROCEDURE", "PROC"] (wsPlusB fun _ => true))) s) false q.toList

/-- The `CREATE\s+PROCEDURE\s+.*` search of line 86 (no `\b`; the trailing
`.*` always succeeds under DOTALL). -/
def createProcedureSearch (q : String) : Bool :=
  searchA (fun _ s =>
    litB "CREATE" (wsPlusB (litB "PROCEDURE" (wsPlusB fun _ => true))) s) false q.toList

/-- One attempt of the `IF OBJECT_ID ... DROP PROCEDURE ... ;` regex of
lines 79-83 at a fixed position: the token sequence
`IF \s+ OBJECT_ID \s* \( [^)]+ \) \s+ IS \s+ NOT \s+ NULL \s+ DROP \s+
PROCEDURE \s+ [^;]+ ;` is deterministic, so a single pass decides it.
Returns the remainder after the match. -/
def openParenAt : List Char → Option (List Char)
  | '(' :: t => some t
  | _ => none

/-- Tokens `IF \s+ OBJECT_ID \s* \( [^)]+ \)` of the drop-guard regex. -/
def ifDropTokens1 (s : List Char) : Option (List Char) :=
  (litAt "IF".toList s).bind fun r1 =>
  (wsPlus r1).bind fun r2 =>
  (litAt "OBJECT_ID".toList r2).bind fun r3 =>
  (openParenAt (r3.dropWhile pyIsSpace)).bind fun r4 =>
  takeNon ')' r4

/-- Tokens `\s+ IS \s+ NOT \s+ NULL` of the drop-guard regex. -/
def ifDropTokens2 (s : List Char) : Option (List Char) :=
  (wsPlus s).bind fun r1 =>
  (litAt "IS".toList r1).bind fun r2 =>
  (wsPlus r2).bind fun r3 =>
  (litAt "NOT".toList r3).bind fun r4 =>
  (wsPlus r4).bind fun r5 =>
  litAt "NULL".toList r5

/-- Tokens `\s+ DROP \s+ PROCEDURE \s+ [^;]+ ;` of the drop-guard regex. -/
def ifDropTokens3 (s : List Char) : Option (List Char) :=
  (wsPlus s).bind fun r1 =>
  (litAt "DROP".toList r1).bind fun r2 =>
  (wsPlus r2).bind fun r3 =>
  (litAt "PROCEDURE".toList r3).bind fun r4 =>
  (wsPlus r4).bind fun r5 =>
  takeNon ';' r5

def ifDropAt (s : List Char) : Option (List Char) :=
  (ifDropTokens1 s).bind fun r =>
  (ifDropTokens2 r).bind fun r2 =>
  ifDropTokens3 r2

/-- `re.search` for the drop-guard regex: leftmost match, returning the
matched text and the remainder of the input after the match. -/
def ifDropSearch : List Char → Option (List Char × List Char)
  | [] => none
  | c :: cs =>
    match ifDropAt (c :: cs) with
    | some rest => some ((c :: cs).take ((c :: cs).length - rest.length), rest)
    | none => ifDropSearch cs

/-- The CREATE-part line cleanup of lines 101-114: skip comment lines before
the first `CREATE`, stop at the first comment line after it, keep lines that
are non-blank or come after `CREATE` was found. -/
def cleanCreateLines (found : Bool) : List String → List String
  | [] => []
  | line :: rest =>
    let ls := pyStrip line
    if ls.toList.take 2 = ['-', '-'] then
      if found then [] else cleanCreateLines found rest
    else
      let found2 := if upStarts "CREATE".toList ls.toList then true else found
      if found2 || !(ls == "") then line :: cleanCreateLines found2 rest
      else cleanCreateLines found2 rest

/-- The drop-then-create pairing of lines 74-118: if both the
`IF OBJECT_ID ... DROP PROCEDURE ...;` guard and a `CREATE PROCEDURE`
pattern occur, emit the guard and the cleaned-up remainder as two units;
otherwise (including when the cleanup removes every line) fall through. -/
def dropCreateSplit (q : String) : Option (List String) :=
  match ifDropSearch q.toList with
  | none => none
  | some (matched, rest) =>
    if createProcedureSearch q then
      let dropPart := pyStrip (String.mk matched)
      let createPart := pyStrip (String.mk rest)
      let cleaned := cleanCreateLines false (splitOnNl createPart)
      if cleaned.isEmpty then none
      else some [dropPart, pyStrip (joinNl cleaned)]
    else none

/-- Is this line a `GO` batch separator?  The multiline search
`^\s*GO\s*$` succeeds exactly when some line, stripped of whitespace,
case-insensitively equals `GO`. -/
def isGoLine (l : String) : Bool :=
  (stripChars l.toList).map Char.toUpper == ['G', 'O']

/-- The `re.search(r'^\s*GO\s*$', ...)` test of line 61. -/
def hasGoLine (q : String) : Bool :=
  (splitOnNl q).any isGoLine

/-- Group the lines of the input into the segments between `GO` separator
lines, modelling `re.split(r'^\s*GO\s*$', ...)`: the regex separator absorbs
whole `GO` lines plus adjacent whitespace only, so after each segment is
stripped the two descriptions agree. -/
def splitLinesOnGo : List String → List (List String)
  | [] => [[]]
  | l :: ls =>
    match splitLinesOnGo ls with
    | [] => [[]]
    | g :: gs => if isGoLine l then [] :: g :: gs else (l :: g) :: gs

/-- The GO-separator branch of lines 61-72: each non-empty stripped segment
between `GO` lines becomes one unit, with no further processing. -/
def goSplitStr (q : String) : List String :=
  let batches := (splitLinesOnGo (splitOnNl q)).map fun g => joinNl g
  let statements := (batches.map pyStrip).filter fun b => !(b == "")
  statements.filter fun s => !(s == "") && !(pyStrip s == "")

/-- Line-comment removal of lines 120-129: truncate each line at its first
`--` (with `rstrip`), even inside string literals (documented limitation). -/
def cutLineComment (l : String) : String :=
  match splitAtMarker '-' '-' l.toList with
  | some (pre, _) => pyRStrip (String.mk pre)
  | none => l
where
  /-- Split a character list at the first occurrence of the two-character
  marker `a b`, returning the text before and after it. -/
  splitAtMarker (a b : Char) : List Char → Option (List Char × List Char)
    | [] => none
    | [_] => none
    | c :: d :: rest =>
      if c == a && d == b then some ([], rest)
      else match splitAtMarker a b (d :: rest) with
        | some (pre, post) => some (c :: pre, post)
        | none => none

def stripLineComments (q : String) : String :=
  joinNl ((splitOnNl q).map cutLineComment)

/-- Block-comment removal of line 132, `re.sub(r'/\*.*?\*/', '', ..., DOTALL)`:
remove each leftmost `/*`-to-nearest-`*/` span, continuing after it; a `/*`
with no later `*/` matches nothing (and then no later `/*` can match either).
The fuel argument only bounds the recursion; each removal consumes at least
the four marker characters, so fuel equal to the input length never runs
out. -/
def stripBlockAux : Nat → List Char → List Char
  | 0, l => l
  | Nat.succ fuel, l =>
    match cutLineComment.splitAtMarker '/' '*' l with
    | none => l
    | some (pre, rest) =>
      match cutLineComment.splitAtMarker '*' '/' rest with
      | none => l
      | some (_, after) => pre ++ stripBlockAux fuel after

def stripBlockCommentsL (l : List Char) : List Char :=
  stripBlockAux l.length l

def stripBlockCommentsStr (q : String) : String :=
  String.mk (stripBlockCommentsL q.toList)

/-- Comment stripping as applied by lines 120-133 before atomic detection. -/
def commentStripped (q : String) : String :=
  pyStrip (stripBlockCommentsStr (stripLineComments q))

/-! ### The character scanner (lines 163-230) -/

/-- The scanner state of the character-scan split: completed statements,
the accumulating statement, and the four lexical state pieces. -/
structure ScanSt where
  stmts : List String
  cur : List Char
  inString : Bool
  stringChar : Option Char
  inBracket : Bool
  parenDepth : Int
  beginEndDepth : Int
deriving DecidableEq

/-- The initial scanner state of lines 164-171. -/
def scanInit : ScanSt :=
  { stmts := [], cur := [], inString := false, stringChar := none,
    inBracket := false, parenDepth := 0, beginEndDepth := 0 }

/-- `current_statement += char`. -/
def pushChar (st : ScanSt) (c : Char) : ScanSt :=
  { st with cur := st.cur ++ [c] }

/-- The true-terminator action of lines 210-216: append the stripped
accumulated text when non-empty, and restart accumulation. -/
def flushSt (st : ScanSt) : ScanSt :=
  { st with
    stmts := st.stmts ++
      (if pyStrip (String.mk st.cur) = "" then [] else [pyStrip (String.mk st.cur)]),
    cur := [] }

/-- Does the slice uppercased equal the given uppercase word? -/
def upperIs : List Char → List Char → Bool
  | [], [] => true
  | c :: cs, p :: ps => c.toUpper == p && upperIs cs ps
  | _, _ => false

/-- `query[i-1]` is absent or not alphanumeric (`BEGIN`/`END` left word
boundary of lines 204/208; note Python `isalnum` excludes underscore). -/
def prevBoundary : Option Char → Bool
  | none => true
  | some p => !p.isAlphanum

/-- The character after the keyword is absent or not alphanumeric. -/
def afterBoundary : List Char → Bool
  | [] => true
  | d :: _ => !d.isAlphanum

/-- Line 202-204: `query[i:i+5].upper() == 'BEGIN'` at a word boundary. -/
def isBeginAt (prev : Option Char) (c : Char) (rest : List Char) : Bool :=
  upperIs ((c :: rest).take 5) ['B', 'E', 'G', 'I', 'N'] &&
  prevBoundary prev && afterBoundary ((c :: rest).drop 5)

/-- Line 206-208: `query[i:i+3].upper() == 'END'` at a word boundary. -/
def isEndAt (prev : Option Char) (c : Char) (rest : List Char) : Bool :=
  upperIs ((c :: rest).take 3) ['E', 'N', 'D'] &&
  prevBoundary prev && afterBoundary ((c :: rest).drop 3)

/-- One iteration of the scanning loop of lines 174-219 at character `c`
with lookahead `rest` and lookbehind `prev`.  Returns the next state and how
many extra characters beyond `c` were consumed (1 for an escaped quote,
which the source appends three times: `char + char` at line 184 and `char`
again at line 218). -/
def scanStep (prev : Option Char) (c : Char) (rest : List Char) (st : ScanSt) :
    ScanSt × Nat :=
  if (c = '\'' ∨ c = '"') ∧ st.inString = false then
    ({ pushChar st c with inString := true, stringChar := some c }, 0)
  else if st.stringChar = some c ∧ st.inString = true then
    match rest with
    | d :: _ =>
      if d = c then ({ st with cur := st.cur ++ [c, c, c] }, 1)
      else ({ pushChar st c with inString := false, stringChar := none }, 0)
    | [] => ({ pushChar st c with inString := false, stringChar := none }, 0)
  else if c = '[' ∧ st.inString = false then
    ({ pushChar st c with inBracket := true }, 0)
  else if c = ']' ∧ st.inBracket = true ∧ st.inString = false then
    ({ pushChar st c with inBracket := false }, 0)
  else if st.inString = false ∧ st.inBracket = false then
    if c = '(' then ({ pushChar st c with parenDepth := st.parenDepth + 1 }, 0)
    else if c = ')' then ({ pushChar st c with parenDepth := st.parenDepth - 1 }, 0)
    else if isBeginAt prev c rest = true then
      ({ pushChar st c with beginEndDepth := st.beginEndDepth + 1 }, 0)
    else if isEndAt prev c rest = true then
      ({ pushChar st c with beginEndDepth := max 0 (st.beginEndDepth - 1) }, 0)
    else if c = ';' ∧ st.parenDepth = 0 ∧ st.beginEndDepth = 0 then
      (flushSt st, 0)
    else (pushChar st c, 0)
  else (pushChar st c, 0)

/-- The scanning loop of lines 173-219: a step that consumed a lookahead
character (the escaped-quote case) skips it before continuing. -/
def scanLoop : Option Char → List Char → ScanSt → ScanSt
  | _, [], st => st
  | prev, [c], st => (scanStep prev c [] st).1
  | prev, c :: c2 :: rest, st =>
    match scanStep prev c (c2 :: rest) st with
    | (st2, Nat.succ _) => scanLoop (some c) rest st2
    | (st2, 0) => scanLoop (some c) (c2 :: rest) st2

/-- `_split_sql_statements` (lines 52-230), the statement splitter. -/
def _split_sql_statements (query : String) : List String :=
  let q := pyStrip query
  if q = "" then []
  else if hasGoLine q then goSplitStr q
  else
    match dropCreateSplit q with
    | some parts => parts
    | none =>
      let t := commentStripped q
      if matchesComplexPatterns t && (innerProcSearch t || innerExecSearch t) then [t]
      else
        let st := scanLoop none t.toList scanInit
        let stmts := st.stmts ++
          (if pyStrip (String.mk st.cur) = "" then [] else [pyStrip (String.mk st.cur)])
        match stmts with
        | [s] =>
          if createAlterProcSearch s then [s]
          else [s].filter fun x => !(x == "") && !(pyStrip x == "")
        | _ => stmts.filter fun x => !(x == "") && !(pyStrip x == "")

/-! ### The per-target executor (lines 232-319) and orchestrator (lines 11-50) -/

/-- One result set as the driver reports it inside the drain loop of lines
256-274: either column metadata with the fully fetched rows, or no metadata
and an affected-row count (`cursor.rowcount`, which may be negative). -/
inductive RSet
  | withCols (desc : List String) (rows : List (List String))
  | noCols (rowcount : Int)
deriving DecidableEq

/-- A result set kept by the drain loop: a metadata set is kept only when
at least one row was fetched (the `if rows:` guard of line 266); a
metadata-less set is always kept (line 270). -/
inductive Kept
  | cols (desc : List String) (rows : List (List String))
  | cnt (n : Int)
deriving DecidableEq

def keepSets (sets : List RSet) : List Kept :=
  sets.filterMap fun s =>
    match s with
    | .withCols d r => if r.isEmpty then none else some (.cols d r)
    | .noCols n => some (.cnt n)

/-- A rendered text block appended to `db_results`, abstracted to the
variants the source's f-strings distinguish (lines 281-293, 299, 305).
The two `Command completed successfully` messages of lines 288 and 292 are
textually identical in the source and share the `completed` variant. -/
inductive Block
  | rowsB (desc : List String) (rows : List (List String)) (db : String)
      (stmtNum : Nat) (rsNum : Option Nat)
  | affected (stmtNum : Nat) (db : String) (n : Int)
  | completed (stmtNum : Nat) (db : String)
  | stmtError (stmtNum : Nat) (db : String) (msg : String)
  | connError (db : String) (msg : String)
deriving DecidableEq

/-- The result-formatting section of lines 276-293 for one successfully
executed statement: the blocks appended to `db_results` and the number of
rows added to `db_total_rows`. -/
def formatResultSets (db : String) (stmtNum : Nat) (sets : List RSet) :
    List Block × Nat :=
  let kept := keepSets sets
  if kept.isEmpty then ([Block.completed stmtNum db], 0)
  else
    (kept.enum.map fun p =>
      match p.2 with
      | .cols d r =>
        Block.rowsB d r db stmtNum (if kept.length > 1 then some (p.1 + 1) else none)
      | .cnt n => if n > 0 then Block.affected stmtNum db n else Block.completed stmtNum db,
     (kept.map fun k => match k with | .cols _ r => r.length | .cnt _ => 0).sum)

/-- The outcome of attempting one statement (execute, drain, format,
commit): the driver's result sets, a `pyodbc.DatabaseError` caught by the
per-statement handler of line 298, or any other exception, which propagates
to the per-target handler of line 304. -/
inductive StmtBeh
  | ok (sets : List RSet)
  | dbError (msg : String)
  | fatal (msg : String)
deriving DecidableEq

def StmtBeh.isFatal : StmtBeh → Bool
  | .fatal _ => true
  | _ => false

/-- The external database behaviour: `connect db` is `some msg` when
`database_connection(db)` raises, and `exec db i s` is the outcome of the
`i`-th (1-based) statement `s` on target `db`. -/
structure DbBeh where
  connect : String → Option String
  exec : String → Nat → String → StmtBeh

/-- The per-target accumulator of lines 235-238. -/
structure ExecAcc where
  count : Nat
  rows : Nat
  errors : List String
  results : List Block
deriving DecidableEq

/-- The statement loop of lines 247-302: `count` is incremented before the
try block, a `dbError` appends to both lists and continues, and a `fatal`
error aborts the loop (returning the pending exception message). -/
def runStmts (beh : DbBeh) (db : String) : List String → Nat → ExecAcc →
    ExecAcc × Option String
  | [], _, acc => (acc, none)
  | s :: rest, i, acc =>
    match beh.exec db i s with
    | .ok sets =>
      let fr := formatResultSets db i sets
      runStmts beh db rest (i + 1)
        { count := acc.count + 1, rows := acc.rows + fr.2,
          errors := acc.errors, results := acc.results ++ fr.1 }
    | .dbError m =>
      runStmts beh db rest (i + 1)
        { count := acc.count + 1, rows := acc.rows,
          errors := acc.errors ++ ["Statement " ++ toString i ++ ": " ++ m],
          results := acc.results ++ [Block.stmtError i db m] }
    | .fatal m => ({ acc with count := acc.count + 1 }, some m)

/-- The per-target execution record returned at lines 311-319 (the
wall-clock `exec_time` field is not modelled). -/
structure TargetRecord where
  name : String
  total_rows : Nat
  status : String
  statement_count : Nat
  errors : List String
  results : List Block
deriving DecidableEq

/-- The single return of lines 311-319: `status` is `'Success'` exactly
when the error list is empty, and `'Error'` otherwise. -/
def mkRecord (db : String) (count rows : Nat) (errors : List String)
    (results : List Block) : TargetRecord :=
  { name := db, statement_count := count, total_rows := rows,
    errors := errors, results := results,
    status := if errors = [] then "Success" else "Error" }

/-- `_execute_on_database` (lines 232-319): a connection failure yields a
record with zero statements attempted; an uncaught (non-`DatabaseError`)
exception during the loop appends a connection-error entry and stops the
loop; per-statement `DatabaseError`s are accumulated and never abort. -/
def _execute_on_database (beh : DbBeh) (db : String) (stmts : List String) :
    TargetRecord :=
  match beh.connect db with
  | some m => mkRecord db 0 0 ["Connection: " ++ m] [Block.connError db m]
  | none =>
    match runStmts beh db stmts 1 ⟨0, 0, [], []⟩ with
    | (acc, none) => mkRecord db acc.count acc.rows acc.errors acc.results
    | (acc, some m) =>
      mkRecord db acc.count acc.rows (acc.errors ++ ["Connection: " ++ m])
        (acc.results ++ [Block.connError db m])

/-- The successful-run payload of lines 46-50 (elapsed wall time omitted). -/
structure RunOutput where
  total_rows : Nat
  databases_info : List TargetRecord
deriving DecidableEq

/-- `execute_query` (lines 11-50).  The first component is the list of
connection attempts: `database_connection` is invoked exactly once per
target inside the loop of lines 36-39, and each `raise` of lines 20-34
happens before that loop, so a validation error performs no attempts. -/
def execute_query_run (beh : DbBeh) (databases : List String) (query : String) :
    List String × Except String RunOutput :=
  if pyStrip query = "" then ([], .error "Query cannot be empty")
  else if databases.isEmpty then ([], .error "No databases selected")
  else if (_split_sql_statements query).isEmpty then
    ([], .error "No valid SQL statements found")
  else
    let statements := _split_sql_statements query
    let infos := databases.map fun db => _execute_on_database beh db statements
    (databases, .ok { total_rows := (infos.map fun r => r.total_rows).sum,
                      databases_info := infos })

def exceptIsError : Except String RunOutput → Bool
  | .error _ => true
  | .ok _ => false

/-! ### Result publication (lines 394-469) -/

/-- One data row of the execution-summary table (lines 440-462), with the
wall-clock time column omitted. -/
structure SummaryRow where
  name : String
  rows : Nat
  statements : Nat
  status : String
  errorSummary : String
deriving DecidableEq

/-- The error column of lines 448-455: `None`, the single (possibly
truncated) message when exactly one error occurred, else a count. -/
def errSummary (errors : List String) : String :=
  match errors with
  | [] => "None"
  | [e] => if e.length > 25 then pyTake e 25 ++ "..." else e
  | es => toString es.length ++ " error(s)"

/-- One summary data row for one target record (lines 441-462): the name is
truncated to 19 characters. -/
def mkSummaryRow (r : TargetRecord) : SummaryRow :=
  { name := pyTake r.name 19, rows := r.total_rows, statements := r.statement_count,
    status := r.status, errorSummary := errSummary r.errors }

/-- The data rows of the summary table, in the order the loop of line 441
emits them: `for db_info in reversed(databases_info)`. -/
def _generate_execution_summary_rows (infos : List TargetRecord) : List SummaryRow :=
  infos.reverse.map mkSummaryRow

/-- A published event: the summary table, then raw result blocks. -/
inductive QEvent
  | summaryRows (rows : List SummaryRow)
  | result (b : Block)
deriving DecidableEq

/-- `_send_results` (lines 394-403): the summary event first, then every
target's result blocks with the targets iterated in reverse order. -/
def _send_results (infos : List TargetRecord) : List QEvent :=
  QEvent.summaryRows (_generate_execution_summary_rows infos) ::
    infos.reverse.flatMap fun r => r.results.map QEvent.result

/-- Concrete behaviours used to instantiate the theorems below. -/
def behIdle : DbBeh := ⟨fun _ => none, fun _ _ _ => .ok []⟩

def behConnFail : DbBeh := ⟨fun _ => some "down", fun _ _ _ => .ok []⟩

def behTwoSets : DbBeh :=
  ⟨fun _ => none, fun _ _ _ => .ok [.withCols ["c"] [], .withCols ["c"] [["1"]]]⟩

def behWit : DbBeh :=
  { connect := fun _ => none,
    exec := fun _ i _ => if i = 2 then .dbError "boom" else .ok [.noCols 1] }

/-! ### Expected-value functions used by the theorems -/

/-- The error-list entries produced by the statement loop starting at
statement number `i`, when no statement raises a non-`DatabaseError`. -/
def stmtErrsFrom (beh : DbBeh) (db : String) (i : Nat) (stmts : List String) :
    List String :=
  (stmts.enumFrom i).filterMap fun p =>
    match beh.exec db p.1 p.2 with
    | .dbError m => some ("Statement " ++ toString p.1 ++ ": " ++ m)
    | _ => none

/-- The result blocks produced by the statement loop starting at `i`. -/
def stmtBlocksFrom (beh : DbBeh) (db : String) (i : Nat) (stmts : List String) :
    List Block :=
  (stmts.enumFrom i).flatMap fun p =>
    match beh.exec db p.1 p.2 with
    | .ok sets => (formatResultSets db p.1 sets).1
    | .dbError m => [Block.stmtError p.1 db m]
    | .fatal _ => []

/-- The row total produced by the statement loop starting at `i`. -/
def stmtRowsFrom (beh : DbBeh) (db : String) (i : Nat) (stmts : List String) : Nat :=
  ((stmts.enumFrom i).map fun p =>
    match beh.exec db p.1 p.2 with
    | .ok sets => (formatResultSets db p.1 sets).2
    | _ => 0).sum

/-! ### Shared lemmas -/

/-- Characterization of the statement loop when the connection survives:
if no statement raises a non-`DatabaseError` exception, every statement is
attempted and the accumulator collects exactly the per-statement errors,
blocks and row counts, in order. -/
theorem runStmts_clean (beh : DbBeh) (db : String) :
    ∀ (stmts : List String) (i : Nat) (acc : ExecAcc),
      (∀ p ∈ stmts.enumFrom i, (beh.exec db p.1 p.2).isFatal = false) →
      runStmts beh db stmts i acc =
        ({ count := acc.count + stmts.length,
           rows := acc.rows + stmtRowsFrom beh db i stmts,
           errors := acc.errors ++ stmtErrsFrom beh db i stmts,
           results := acc.results ++ stmtBlocksFrom beh db i stmts }, none) := by
  intro stmts
  induction stmts with
  | nil =>
    intro i acc _
    cases acc
    simp [runStmts, stmtRowsFrom, stmtErrsFrom, stmtBlocksFrom]
  | cons s rest ih =>
    intro i acc h
    rw [runStmts]
    cases hx : beh.exec db i s with
    | ok sets =>
      dsimp only
      rw [ih (i + 1) _ (by
        intro p hp
        exact h p (by simp [List.enumFrom_cons]; right; exact hp))]
      simp [stmtRowsFrom, stmtErrsFrom, stmtBlocksFrom, List.enumFrom_cons, hx]
      omega
    | dbError m =>
      dsimp only
      rw [ih (i + 1) _ (by
        intro p hp
        exact h p (by simp [List.enumFrom_cons]; right; exact hp))]
      simp [stmtRowsFrom, stmtErrsFrom, stmtBlocksFrom, List.enumFrom_cons, hx]
      omega
    | fatal m =>
      exfalso
      have := h (i, s) (by simp [List.enumFrom_cons])
      rw [hx] at this
      simp [StmtBeh.isFatal] at this

/-! ### Claim theorems -/

/-- C9: `_split_sql_statements` is a total function (its Lean embedding is
a terminating, exception-free definition, so every input has a value), and
every empty or whitespace-only input yields the empty sequence. -/
theorem C9_split_total_empty :
    (∀ q : String, ∃ out, _split_sql_statements q = out) ∧
    (∀ q : String, pyStrip q = "" → _split_sql_statements q = []) := by
  constructor
  · intro q
    exact ⟨_, rfl⟩
  · intro q h
    unfold _split_sql_statements
    rw [h]
    simp

theorem C9_witness : _split_sql_statements "   " = [] :=
  C9_split_total_empty.2 "   " (by decide)

/-- C4: when some line of the (stripped) input is a `GO` separator line,
the splitter performs only the GO split — each non-empty trimmed segment
between separator lines becomes one unit, in order, with none of the later
stages (drop-then-create pairing, comment stripping, atomic detection,
character scan) applied — and the spec's example yields its three units. -/
theorem C4_go_batch_split :
    (∀ q : String, hasGoLine (pyStrip q) = true →
        _split_sql_statements q = goSplitStr (pyStrip q)) ∧
    _split_sql_statements "stmt1\nGO\nstmt2\nGO\nstmt3" = ["stmt1", "stmt2", "stmt3"] := by
  constructor
  · intro q h
    have hne : ¬ pyStrip q = "" := by
      intro he
      rw [he] at h
      exact absurd h (by decide)
    unfold _split_sql_statements
    rw [if_neg hne, if_pos h]
  · decide

theorem C4_witness : _split_sql_statements "a\nGO\nb" = goSplitStr (pyStrip "a\nGO\nb") :=
  C4_go_batch_split.1 "a\nGO\nb" (by decide)

/-- C5: `execute_query` rejects with a validation error exactly when the
query text strips to empty, the target list is empty, or splitting yields
zero units; and in every such case the connection-attempt list is empty
(no database connection is ever opened). -/
theorem C5_validation_rejects :
    (∀ (beh : DbBeh) (dbs : List String) (q : String),
        exceptIsError (execute_query_run beh dbs q).2 = true ↔
          (pyStrip q = "" ∨ dbs = [] ∨ _split_sql_statements q = [])) ∧
    (∀ (beh : DbBeh) (dbs : List String) (q : String),
        (pyStrip q = "" ∨ dbs = [] ∨ _split_sql_statements q = []) →
        (execute_query_run beh dbs q).1 = []) := by
  constructor
  · intro beh dbs q
    unfold execute_query_run
    split_ifs with h1 h2 h3 <;>
      simp_all [exceptIsError, List.isEmpty_iff]
  · intro beh dbs q h
    unfold execute_query_run
    split_ifs with h1 h2 h3 <;>
      simp_all [List.isEmpty_iff]

theorem C5_witness : (execute_query_run behIdle [] "SELECT 1").1 = [] :=
  C5_validation_rejects.2 behIdle [] "SELECT 1" (Or.inr (Or.inl rfl))

/-- C7 (counterexample): the record of a target whose connection fails has
a non-empty error list, and its status field is the string `Error`, not the
`Failed` the claim states. -/
theorem C7_counterexample :
    (_execute_on_database behConnFail "A" ["s"]).errors ≠ [] ∧
    (_execute_on_database behConnFail "A" ["s"]).status = "Error" ∧
    (_execute_on_database behConnFail "A" ["s"]).status ≠ "Failed" := by
  decide

/-- C7 (amended): for every per-target record, the status field equals
`Success` when the error list is empty and `Error` (the source's literal at
line 315, not `Failed`) otherwise. -/
theorem C7_status_field :
    ∀ (beh : DbBeh) (db : String) (stmts : List String),
      (_execute_on_database beh db stmts).status =
        (if (_execute_on_database beh db stmts).errors = [] then "Success" else "Error") := by
  intro beh db stmts
  unfold _execute_on_database
  cases beh.connect db with
  | some m => rfl
  | none =>
    rcases runStmts beh db stmts 1 ⟨0, 0, [], []⟩ with ⟨acc, f⟩
    cases f with
    | none => rfl
    | some m => rfl

/-- C6 (counterexample): for a two-target run completed in order A then B,
the summary-table data rows list B first — the summary is emitted in
reverse target order, not in true completion order as the claim states. -/
theorem C6_counterexample :
    (_generate_execution_summary_rows
        [mkRecord "A" 0 0 [] [], mkRecord "B" 0 0 [] []]).map (fun row => row.name) =
      ["B", "A"] ∧
    (["B", "A"] : List String) ≠ ["A", "B"] := by
  decide

/-- C6 (amended): after a run, the streamed per-target result blocks are
published in reverse target order, and the execution-summary data rows are
*also* in reverse target order (`for db_info in reversed(...)` at line 441),
not in completion order. -/
theorem C6_publication_order :
    (∀ infos : List TargetRecord,
        (_send_results infos).drop 1 =
          infos.reverse.flatMap fun r => r.results.map QEvent.result) ∧
    (∀ infos : List TargetRecord,
        (_generate_execution_summary_rows infos).map (fun row => row.name) =
          (infos.map fun r => pyTake r.name 19).reverse) := by
  constructor
  · intro infos
    rfl
  · intro infos
    simp [_generate_execution_summary_rows, mkSummaryRow, List.map_reverse]

/-- C8 (counterexample): a statement whose execution returns two driver
result sets — one with column metadata and zero rows, one with a row —
records exactly one outcome block, not one per result set: the zero-row
metadata set is silently dropped by the `if rows:` guard of line 266. -/
theorem C8_counterexample :
    (_execute_on_database behTwoSets "db" ["s"]).results =
      [Block.rowsB ["c"] [["1"]] "db" 1 none] ∧
    ([RSet.withCols ["c"] [], RSet.withCols ["c"] [["1"]]].length = 2) := by
  decide

/-- C8 (amended): one outcome is recorded per kept result set — a result
set with no column metadata, or one with metadata and at least one row; a
metadata result set with zero rows contributes nothing (formatting is
invariant under removing it), and when nothing is kept a single generic
completed block is recorded for the statement. -/
theorem C8_outcomes_per_kept_set :
    (∀ (db : String) (i : Nat) (d : List String) (sets : List RSet),
        formatResultSets db i (RSet.withCols d [] :: sets) = formatResultSets db i sets) ∧
    (∀ (db : String) (i : Nat) (sets : List RSet),
        (formatResultSets db i sets).1.length = max 1 (keepSets sets).length) := by
  constructor
  · intro db i d sets
    unfold formatResultSets keepSets
    simp [List.filterMap_cons]
  · intro db i sets
    unfold formatResultSets
    by_cases h : (keepSets sets).isEmpty
    · rw [if_pos h]
      rw [List.isEmpty_iff] at h
      simp [h]
    · rw [if_neg h]
      rw [List.isEmpty_iff] at h
      have hlen : (keepSets sets).length ≠ 0 := by
        simpa [List.length_eq_zero] using h
      simp [List.enum_length]
      omega

/-- C3 (counterexample): `DECLARE @x INT; SELECT 1;` matches an atomic
class (the `DECLARE @variable` pattern), yet the splitter does not return
the whole text as one unit — it falls through to the character scan and
yields two units, because the loop of lines 154-161 only returns early when
one of the two *inner* re-checks (procedure/function/trigger, or EXEC)
also matches. -/
theorem C3_counterexample :
    matchesComplexPatterns (commentStripped (pyStrip "DECLARE @x INT; SELECT 1;")) = true ∧
    _split_sql_statements "DECLARE @x INT; SELECT 1;" = ["DECLARE @x INT", "SELECT 1"] ∧
    _split_sql_statements "DECLARE @x INT; SELECT 1;" ≠ ["DECLARE @x INT; SELECT 1;"] := by
  decide

/-- C3 (amended): in the absence of GO lines and of the drop-then-create
pairing, the whole comment-stripped text is returned as exactly one unit
when some complex pattern matches *and* one of the two inner re-checks
(`CREATE|ALTER|DROP PROCEDURE|PROC|FUNCTION|FUNC|TRIGGER`, or
`EXEC|EXECUTE`) matches; texts matching only the VIEW, DECLARE or
BEGIN...END classes instead fall through to the character scan.  The
spec's `CREATE PROCEDURE` example does return one unit. -/
theorem C3_atomic_classes :
    (∀ q : String,
        hasGoLine (pyStrip q) = false →
        dropCreateSplit (pyStrip q) = none →
        pyStrip q ≠ "" →
        matchesComplexPatterns (commentStripped (pyStrip q)) = true →
        (innerProcSearch (commentStripped (pyStrip q)) ||
          innerExecSearch (commentStripped (pyStrip q))) = true →
        _split_sql_statements q = [commentStripped (pyStrip q)]) ∧
    _split_sql_statements "CREATE PROCEDURE p AS BEGIN SELECT 1; SELECT 2; END" =
      ["CREATE PROCEDURE p AS BEGIN SELECT 1; SELECT 2; END"] := by
  constructor
  · intro q hgo hdc hne hm hi
    unfold _split_sql_statements
    rw [if_neg hne, hgo]
    simp only [Bool.false_eq_true, if_false]
    rw [hdc, hm, hi]
    simp
  · decide

theorem C3_witness :
    _split_sql_statements "CREATE PROCEDURE q2 AS SELECT 5" =
      [commentStripped (pyStrip "CREATE PROCEDURE q2 AS SELECT 5")] :=
  C3_atomic_classes.1 "CREATE PROCEDURE q2 AS SELECT 5"
    (by decide) (by decide) (by decide) (by decide) (by decide)

/-- A character whose uppercase form is not `B` can never start a `BEGIN`
keyword match. -/
theorem isBeginAt_not_b (prev : Option Char) (c : Char) (rest : List Char)
    (h : (c.toUpper == 'B') = false) : isBeginAt prev c rest = false := by
  unfold isBeginAt
  rw [show (c :: rest).take 5 = c :: rest.take 4 from rfl]
  rw [show upperIs (c :: rest.take 4) ['B', 'E', 'G', 'I', 'N'] =
        ((c.toUpper == 'B') && upperIs (rest.take 4) ['E', 'G', 'I', 'N']) from rfl]
  rw [h]
  simp

/-- A character whose uppercase form is not `E` can never start an `END`
keyword match. -/
theorem isEndAt_not_e (prev : Option Char) (c : Char) (rest : List Char)
    (h : (c.toUpper == 'E') = false) : isEndAt prev c rest = false := by
  unfold isEndAt
  rw [show (c :: rest).take 3 = c :: rest.take 2 from rfl]
  rw [show upperIs (c :: rest.take 2) ['E', 'N', 'D'] =
        ((c.toUpper == 'E') && upperIs (rest.take 2) ['N', 'D']) from rfl]
  rw [h]
  simp

/-- An `END` keyword match forces the scanned character to uppercase to `E`. -/
theorem isEndAt_head (prev : Option Char) (c : Char) (rest : List Char)
    (h : isEndAt prev c rest = true) : (c.toUpper == 'E') = true := by
  unfold isEndAt at h
  simp only [Bool.and_eq_true] at h
  have h1 := h.1.1
  rw [show (c :: rest).take 3 = c :: rest.take 2 from rfl] at h1
  rw [show upperIs (c :: rest.take 2) ['E', 'N', 'D'] =
        ((c.toUpper == 'E') && upperIs (rest.take 2) ['N', 'D']) from rfl] at h1
  simp only [Bool.and_eq_true] at h1
  exact h1.1

/-- C2: in the character scan, a semicolon acts as a statement terminator
(flushing the accumulated unit) if and only if the scanner is not inside a
string literal, not inside a bracketed identifier, parenthesis depth is 0
and BEGIN/END depth is 0 — otherwise the semicolon is accumulated as an
ordinary character; and the two spec examples split as stated.  (The side
condition excludes the unreachable state in which the scanner claims to be
inside a string opened by a semicolon: line 178 only ever stores a quote
character.) -/
theorem C2_semicolon_terminator :
    (∀ (st : ScanSt) (prev : Option Char) (rest : List Char),
        ¬ (st.inString = true ∧ st.stringChar = some ';') →
        scanStep prev ';' rest st =
          (if st.inString = false ∧ st.inBracket = false ∧
              st.parenDepth = 0 ∧ st.beginEndDepth = 0
           then flushSt st else pushChar st ';', 0)) ∧
    _split_sql_statements "SELECT 1; SELECT 2;" = ["SELECT 1", "SELECT 2"] ∧
    _split_sql_statements "SELECT ';' AS x; SELECT 2;" =
      ["SELECT ';' AS x", "SELECT 2"] := by
  refine ⟨?_, by decide, by decide⟩
  intro st prev rest h
  unfold scanStep
  rw [if_neg (fun hc => absurd hc.1 (by decide))]
  rw [if_neg (fun hc => h ⟨hc.2, hc.1⟩)]
  rw [if_neg (fun hc => absurd hc.1 (by decide))]
  rw [if_neg (fun hc => absurd hc.1 (by decide))]
  by_cases h5 : st.inString = false ∧ st.inBracket = false
  · rw [if_pos h5]
    rw [if_neg (by decide : ¬ (';' : Char) = '(')]
    rw [if_neg (by decide : ¬ (';' : Char) = ')')]
    rw [if_neg (by rw [isBeginAt_not_b prev ';' rest (by decide)]; decide)]
    rw [if_neg (by rw [isEndAt_not_e prev ';' rest (by decide)]; decide)]
    by_cases h6 : st.parenDepth = 0 ∧ st.beginEndDepth = 0
    · rw [if_pos ⟨rfl, h6.1, h6.2⟩, if_pos ⟨h5.1, h5.2, h6.1, h6.2⟩]
    · rw [if_neg (fun hc => h6 ⟨hc.2.1, hc.2.2⟩),
          if_neg (fun hc => h6 ⟨hc.2.2.1, hc.2.2.2⟩)]
  · rw [if_neg h5, if_neg (fun hc => h5 ⟨hc.1, hc.2.1⟩)]

theorem C2_witness :
    scanStep none ';' [] scanInit =
      (if scanInit.inString = false ∧ scanInit.inBracket = false ∧
          scanInit.parenDepth = 0 ∧ scanInit.beginEndDepth = 0
       then flushSt scanInit else pushChar scanInit ';', 0) :=
  C2_semicolon_terminator.1 scanInit none [] (by decide)

/-- C10: outside strings and brackets, a closing parenthesis decrements the
parenthesis counter with no lower bound (so an unmatched `)` drives it
negative), a word-bounded `END` clamps the BEGIN/END counter at zero, a
semicolon while the parenthesis depth is non-zero is merely accumulated
(not a terminator), and consequently `split("x); a; b")` returns the whole
text as a single unit. -/
theorem C10_paren_depth_unclamped :
    (∀ (st : ScanSt) (prev : Option Char) (rest : List Char),
        st.inString = false → st.inBracket = false →
        (scanStep prev ')' rest st).1.parenDepth = st.parenDepth - 1) ∧
    (∀ (st : ScanSt) (prev : Option Char) (c : Char) (rest : List Char),
        st.inString = false → st.inBracket = false → isEndAt prev c rest = true →
        (scanStep prev c rest st).1.beginEndDepth = max 0 (st.beginEndDepth - 1)) ∧
    (∀ (st : ScanSt) (prev : Option Char) (rest : List Char),
        st.inString = false → st.inBracket = false → st.parenDepth ≠ 0 →
        scanStep prev ';' rest st = (pushChar st ';', 0)) ∧
    _split_sql_statements "x); a; b" = ["x); a; b"] := by
  refine ⟨?_, ?_, ?_, by decide⟩
  · intro st prev rest h1 h2
    unfold scanStep
    rw [if_neg (fun hc => absurd hc.1 (by decide))]
    rw [if_neg (fun hc => by rw [h1] at hc; exact absurd hc.2 (by decide))]
    rw [if_neg (fun hc => absurd hc.1 (by decide))]
    rw [if_neg (fun hc => absurd hc.1 (by decide))]
    rw [if_pos ⟨h1, h2⟩]
    rw [if_neg (by decide : ¬ (')' : Char) = '(')]
    rw [if_pos (rfl : (')' : Char) = ')')]
  · intro st prev c rest h1 h2 h3
    have hE := isEndAt_head prev c rest h3
    have hE2 : c.toUpper = 'E' := by simpa using hE
    unfold scanStep
    rw [if_neg (fun hc => by
      rcases hc.1 with hq | hq <;> (rw [hq] at hE2; exact absurd hE2 (by decide)))]
    rw [if_neg (fun hc => by rw [h1] at hc; exact absurd hc.2 (by decide))]
    rw [if_neg (fun hc => by rw [hc.1] at hE2; exact absurd hE2 (by decide))]
    rw [if_neg (fun hc => by rw [h2] at hc; exact absurd hc.2.1 (by decide))]
    rw [if_pos ⟨h1, h2⟩]
    rw [if_neg (fun hc => by rw [hc] at hE2; exact absurd hE2 (by decide))]
    rw [if_neg (fun hc => by rw [hc] at hE2; exact absurd hE2 (by decide))]
    rw [if_neg (by
      rw [isBeginAt_not_b prev c rest (by rw [hE2]; decide)]; decide)]
    rw [if_pos h3]
  · intro st prev rest h1 h2 h3
    unfold scanStep
    rw [if_neg (fun hc => absurd hc.1 (by decide))]
    rw [if_neg (fun hc => by rw [h1] at hc; exact absurd hc.2 (by decide))]
    rw [if_neg (fun hc => absurd hc.1 (by decide))]
    rw [if_neg (fun hc => absurd hc.1 (by decide))]
    rw [if_pos ⟨h1, h2⟩]
    rw [if_neg (by decide : ¬ (';' : Char) = '(')]
    rw [if_neg (by decide : ¬ (';' : Char) = ')')]
    rw [if_neg (by rw [isBeginAt_not_b prev ';' rest (by decide)]; decide)]
    rw [if_neg (by rw [isEndAt_not_e prev ';' rest (by decide)]; decide)]
    rw [if_neg (fun hc => h3 hc.2.1)]

theorem C10_witness :
    (scanStep none ')' [] scanInit).1.parenDepth = scanInit.parenDepth - 1 :=
  C10_paren_depth_unclamped.1 scanInit none [] rfl rfl

/-- C1: a successful run produces exactly one per-target record per target,
in order, each depending only on its own target (so no target's failure can
affect any later target); and on a target whose connection survives with no
non-`DatabaseError` exception, every statement is attempted regardless of
how many fail, with each statement-level error appended to the target's
error list and a failure block appended to its results, in statement
order. -/
theorem C1_per_target_isolation :
    (∀ (beh : DbBeh) (dbs : List String) (q : String) (out : RunOutput),
        (execute_query_run beh dbs q).2 = Except.ok out →
        out.databases_info =
          dbs.map fun db => _execute_on_database beh db (_split_sql_statements q)) ∧
    (∀ (beh : DbBeh) (db : String) (stmts : List String),
        beh.connect db = none →
        (∀ p ∈ stmts.enumFrom 1, (beh.exec db p.1 p.2).isFatal = false) →
        (_execute_on_database beh db stmts).statement_count = stmts.length ∧
        (_execute_on_database beh db stmts).errors = stmtErrsFrom beh db 1 stmts ∧
        (_execute_on_database beh db stmts).results = stmtBlocksFrom beh db 1 stmts) := by
  constructor
  · intro beh dbs q out h
    unfold execute_query_run at h
    by_cases h1 : pyStrip q = ""
    · rw [if_pos h1] at h
      exact absurd h (by simp)
    rw [if_neg h1] at h
    by_cases hd : dbs.isEmpty = true
    · rw [if_pos hd] at h
      exact absurd h (by simp)
    rw [if_neg hd] at h
    by_cases hs : (_split_sql_statements q).isEmpty = true
    · rw [if_pos hs] at h
      exact absurd h (by simp)
    rw [if_neg hs] at h
    dsimp only at h
    injection h with h2
    rw [← h2]
  · intro beh db stmts hc hf
    unfold _execute_on_database
    rw [hc, runStmts_clean beh db stmts 1 ⟨0, 0, [], []⟩ hf]
    refine ⟨?_, ?_, ?_⟩ <;> simp [mkRecord]

theorem C1_witness :
    (_execute_on_database behWit "A" ["s1", "s2", "s3"]).statement_count =
      ["s1", "s2", "s3"].length ∧
    (_execute_on_database behWit "A" ["s1", "s2", "s3"]).errors =
      stmtErrsFrom behWit "A" 1 ["s1", "s2", "s3"] ∧
    (_execute_on_database behWit "A" ["s1", "s2", "s3"]).results =
      stmtBlocksFrom behWit "A" 1 ["s1", "s2", "s3"] :=
  C1_per_target_isolation.2 behWit "A" ["s1", "s2", "s3"] rfl (by decide)
